import Mathlib

/-!
Verification of the trade-approval reinforcement-learning core of the
HyperSwarm risk-management service, shallowly embedded in Lean 4.

Python floats are modelled as rationals (`ℚ`), integer action codes as `ℤ`,
dataframes as lists of rows, and the RNG draw inside `reset` as an explicit
parameter constrained to the interval the source draws from.

Sources embedded here:
- `risk/utils/rl/reward_calculator.py` (`RewardCalculator`, `TradeOutcome`)
- `risk/utils/rl/state_encoder.py` (`StateEncoder`)
- `risk/utils/rl/data_loader.py` (`DataLoader.simulate_trade_outcome`,
  `split_data`, the scaler fit of `prepare_training_data`)
- `risk/utils/rl/environment.py` (`TradeApprovalEnv`)
- `risk/utils/rl/training_history.py` (`create_run` id generation,
  `load_checkpoint` path resolution)
-/

namespace HyperSwarmRL

/-- The `TradeOutcome` dataclass from `reward_calculator.py`. -/
structure TradeOutcome where
  pnl : ℚ
  max_drawdown : ℚ
  was_liquidated : Bool
  was_stopped : Bool
  hit_take_profit : Bool
  hold_periods : ℕ
deriving DecidableEq, Repr

/-- Action constant `ACTION_REJECT = 0`. -/
def ACTION_REJECT : ℤ := 0

/-- Action constant `ACTION_APPROVE_WARNING = 1`. -/
def ACTION_APPROVE_WARNING : ℤ := 1

/-- Action constant `ACTION_APPROVE = 2`. -/
def ACTION_APPROVE : ℤ := 2

/-- The `RewardCalculator.__init__` configurable weights. -/
structure RewardCalculator where
  liquidation_penalty : ℚ
  good_rejection_reward : ℚ
  missed_opportunity_factor : ℚ
  drawdown_penalty_factor : ℚ
  health_bonus : ℚ
  health_threshold : ℚ
deriving DecidableEq, Repr

/-- The default constants of `RewardCalculator.__init__` /
`RewardCalculator.get_default_config`. -/
def defaultRewardCalculator : RewardCalculator :=
  { liquidation_penalty := -5
    good_rejection_reward := 1
    missed_opportunity_factor := 0.3
    drawdown_penalty_factor := 0.5
    health_bonus := 0.1
    health_threshold := 0.8 }

/-- The `RewardCalculator.calculate_reward` (reward_calculator.py lines 68-130),
translated branch for branch. -/
def RewardCalculator.calculate_reward (c : RewardCalculator) (action : ℤ)
    (t : TradeOutcome) (portfolio_health : ℚ) : ℚ :=
  let r0 : ℚ :=
    if action = ACTION_REJECT then
      if t.was_liquidated ∨ t.pnl < 0 then
        c.good_rejection_reward + (if t.was_liquidated then 0.5 else 0)
      else
        -c.missed_opportunity_factor * min t.pnl 0.5
    else if action = ACTION_APPROVE_WARNING ∨ action = ACTION_APPROVE then
      let r1 : ℚ :=
        if t.was_liquidated then
          c.liquidation_penalty
        else
          let pnl_reward := t.pnl * 10
          let dd_pen := t.max_drawdown * c.drawdown_penalty_factor * 10
          let r2 := pnl_reward - dd_pen
          let r3 := if t.was_stopped ∧ t.pnl < 0 then r2 - 0.3 else r2
          if t.hit_take_profit then r3 + 0.2 else r3
      if action = ACTION_APPROVE_WARNING ∧ 0 < t.pnl then r1 - 0.05 else r1
    else 0
  if c.health_threshold ≤ portfolio_health then r0 + c.health_bonus else r0

/-- The component dictionary built by `RewardCalculator.get_reward_breakdown`
(reward_calculator.py lines 156-205); one field per dictionary key. -/
structure RewardBreakdown where
  base_reward : ℚ
  pnl_component : ℚ
  drawdown_penalty : ℚ
  liquidation_penalty : ℚ
  missed_opportunity : ℚ
  good_rejection_bonus : ℚ
  health_bonus : ℚ
  total : ℚ
deriving DecidableEq, Repr

/-- Sum of the component values of a breakdown, excluding the `total` key. -/
def RewardBreakdown.componentSum (b : RewardBreakdown) : ℚ :=
  b.base_reward + b.pnl_component + b.drawdown_penalty + b.liquidation_penalty +
    b.missed_opportunity + b.good_rejection_bonus + b.health_bonus

/-- The all-zero component dictionary `get_reward_breakdown` starts from. -/
def RewardBreakdown.zero : RewardBreakdown :=
  { base_reward := 0, pnl_component := 0, drawdown_penalty := 0,
    liquidation_penalty := 0, missed_opportunity := 0,
    good_rejection_bonus := 0, health_bonus := 0, total := 0 }

/-- The `RewardCalculator.get_reward_breakdown` (reward_calculator.py lines
156-205): note the source fills only `good_rejection_bonus`,
`missed_opportunity`, `liquidation_penalty`, `pnl_component`,
`drawdown_penalty` and `health_bonus`; the stop-loss adjustment, the
take-profit bonus and the approve-with-warning caution penalty of
`calculate_reward` have no component here. -/
def RewardCalculator.get_reward_breakdown (c : RewardCalculator) (action : ℤ)
    (t : TradeOutcome) (portfolio_health : ℚ) : RewardBreakdown :=
  let b1 : RewardBreakdown :=
    if action = ACTION_REJECT then
      if t.was_liquidated ∨ t.pnl < 0 then
        { RewardBreakdown.zero with
          good_rejection_bonus :=
            c.good_rejection_reward + (if t.was_liquidated then 0.5 else 0) }
      else
        { RewardBreakdown.zero with
          missed_opportunity := -c.missed_opportunity_factor * min t.pnl 0.5 }
    else if action = ACTION_APPROVE_WARNING ∨ action = ACTION_APPROVE then
      if t.was_liquidated then
        { RewardBreakdown.zero with liquidation_penalty := c.liquidation_penalty }
      else
        { RewardBreakdown.zero with
          pnl_component := t.pnl * 10
          drawdown_penalty := -(t.max_drawdown * c.drawdown_penalty_factor * 10) }
    else RewardBreakdown.zero
  let b2 : RewardBreakdown :=
    if c.health_threshold ≤ portfolio_health then
      { b1 with health_bonus := c.health_bonus }
    else b1
  { b2 with total := b2.componentSum }

/-- The `np.clip(x, lo, hi)`: equivalent to `np.minimum(hi, np.maximum(x, lo))`. -/
def npClip (x lo hi : ℚ) : ℚ := min hi (max x lo)

/-- The portfolio-state dictionary consumed by the portfolio encoder
and maintained by `TradeApprovalEnv._update_portfolio`. -/
structure PortfolioState where
  account_value : ℚ
  current_leverage : ℚ
  margin_usage : ℚ
  num_positions : ℚ
  liquidation_distance : ℚ
  health_score : ℚ
deriving DecidableEq, Repr

/-- Trade direction strings "long" / "short". -/
inductive TradeDirection where
  | long
  | short
deriving DecidableEq, Repr

/-- The trade-proposal dictionary consumed by
`StateEncoder.encode_trade_proposal` and produced by
`TradeApprovalEnv._generate_trade_proposal`. -/
structure TradeProposal where
  size : ℚ
  leverage : ℚ
  confidence : ℚ
  z_score : ℚ
  direction : TradeDirection
  account_value : ℚ
deriving DecidableEq, Repr

/-- One row of the processed market dataframe: OHLC-derived price columns
plus the 14 indicator feature columns of `DataLoader.get_feature_columns`. -/
structure MarketRow where
  close : ℚ
  high : ℚ
  low : ℚ
  rsi_14 : ℚ
  macd : ℚ
  macd_signal : ℚ
  macd_diff : ℚ
  bb_position : ℚ
  atr_normalized : ℚ
  adx : ℚ
  volume_ratio : ℚ
  momentum_1h : ℚ
  momentum_4h : ℚ
  momentum_24h : ℚ
  returns : ℚ
  stoch_k : ℚ
  stoch_d : ℚ
deriving DecidableEq, Repr, Inhabited

/-- The method `encode_portfolio` of `StateEncoder` (state_encoder.py lines
63-89). -/
def encode_portfolio_features (p : PortfolioState) : List ℚ :=
  [npClip (p.account_value / 100000) 0 1,
   npClip (p.current_leverage / 10) 0 1,
   npClip p.margin_usage 0 1,
   npClip (p.num_positions / 5) 0 1,
   npClip p.liquidation_distance 0 1,
   npClip (p.health_score / 100) 0 1]

/-- The `StateEncoder.encode_trade_proposal` (state_encoder.py lines 91-117). -/
def encode_trade_proposal (t : TradeProposal) : List ℚ :=
  [npClip (t.size / t.account_value) 0 1,
   npClip (t.leverage / 10) 0 1,
   npClip t.confidence 0 1,
   npClip (t.z_score / 3) (-1) 1]

/-- The `StateEncoder.encode_market_conditions` (state_encoder.py lines 119-168):
with `already_normalized = true` every indicator value passes through
unchanged; otherwise the per-column heuristics of the source are applied, in
the source's column order. -/
def encode_market_conditions (m : MarketRow) (already_normalized : Bool) :
    List ℚ :=
  [if already_normalized then m.rsi_14 else (m.rsi_14 - 50) / 50,
   if already_normalized then m.macd else npClip m.macd (-3) 3 / 3,
   if already_normalized then m.macd_signal else npClip m.macd_signal (-3) 3 / 3,
   if already_normalized then m.macd_diff else npClip m.macd_diff (-3) 3 / 3,
   if already_normalized then m.bb_position else npClip m.bb_position (-2) 2 / 2,
   if already_normalized then m.atr_normalized else npClip m.atr_normalized (-3) 3 / 3,
   if already_normalized then m.adx else m.adx / 50 - 1,
   if already_normalized then m.volume_ratio else npClip ( m.volume_ratio - 1) (-2) 2 / 2,
   if already_normalized then m.momentum_1h else npClip m.momentum_1h (-3) 3 / 3,
   if already_normalized then m.momentum_4h else npClip m.momentum_4h (-3) 3 / 3,
   if already_normalized then m.momentum_24h else npClip m.momentum_24h (-3) 3 / 3,
   if already_normalized then m.returns else npClip m.returns (-3) 3 / 3,
   if already_normalized then m.stoch_k else (m.stoch_k - 50) / 50,
   if already_normalized then m.stoch_d else (m.stoch_d - 50) / 50]

/-- The `StateEncoder.encode` (state_encoder.py lines 170-193): concatenation of
the three feature groups into the 24-element observation. -/
def encode (p : PortfolioState) (t : TradeProposal) (m : MarketRow)
    (already_normalized : Bool) : List ℚ :=
  encode_portfolio_features p ++ encode_trade_proposal t ++
    encode_market_conditions m already_normalized

/-- The `low` array of `StateEncoder.get_observation_space_bounds`. -/
def observationLow : List ℚ :=
  [0, 0, 0, 0, 0, 0] ++ [0, 0, 0, -1] ++ List.replicate 14 (-3)

/-- The `high` array of `StateEncoder.get_observation_space_bounds`. -/
def observationHigh : List ℚ :=
  [1, 1, 1, 1, 1, 1] ++ [1, 1, 1, 1] ++ List.replicate 14 3

/-- Elementwise containment of a vector between a low and a high vector
(matching positions; shorter tails are vacuous). -/
def allWithin : List ℚ → List ℚ → List ℚ → Prop
  | lo :: los, hi :: his, x :: xs => (lo ≤ x ∧ x ≤ hi) ∧ allWithin los his xs
  | _, _, _ => True

/-- Minimum of a price slice, `lows.min()`; `0` for the empty slice (the
source would raise there, and every embedded call site keeps the slice
nonempty). -/
def minD : List ℚ → ℚ
  | [] => 0
  | x :: xs => xs.foldl min x

/-- Maximum of a price slice, `highs.max()`; `0` for the empty slice. -/
def maxD : List ℚ → ℚ
  | [] => 0
  | x :: xs => xs.foldl max x

/-- Python `l[-1]` for a nonempty list; `0` for the empty list. -/
def lastD (l : List ℚ) : ℚ := l.getD (l.length - 1) 0

/-- The close price of row `i` of a dataframe. -/
def closeAt (df : List MarketRow) (i : ℕ) : ℚ := (df.getD i default).close

/-- The outcome dictionary returned by `DataLoader.simulate_trade_outcome`. -/
structure SimOutcome where
  pnl : ℚ
  max_drawdown : ℚ
  was_stopped : Bool
  hit_take_profit : Bool
  was_liquidated : Bool
  hold_periods : ℕ
  entry_price : ℚ
  exit_price : ℚ
deriving DecidableEq, Repr

/-- The `DataLoader.simulate_trade_outcome` (data_loader.py lines 212-280):
clamps the hold window to the end of the dataframe, slices
`close`/`high`/`low` over `[entry_idx, entry_idx + hold]`, computes the
excursion-based drawdown and stop/take-profit flags, and always realizes
pnl at the window's final close (the flags never move the exit). -/
def simulate_trade_outcome (df : List MarketRow) (entry_idx : ℕ)
    (direction : TradeDirection) (leverage : ℚ) (hold_periods : ℕ)
    (stop_loss_pct take_profit_pct : ℚ) : SimOutcome :=
  let hp := if df.length ≤ entry_idx + hold_periods
            then df.length - entry_idx - 1 else hold_periods
  let entry_price := (df.getD entry_idx default).close
  let window := (df.drop entry_idx).take (hp + 1)
  let prices := window.map MarketRow.close
  let highs := window.map MarketRow.high
  let lows := window.map MarketRow.low
  let max_drawdown :=
    match direction with
    | TradeDirection.long => (entry_price - minD lows) / entry_price * leverage
    | TradeDirection.short => (maxD highs - entry_price) / entry_price * leverage
  let was_stopped : Bool :=
    match direction with
    | TradeDirection.long =>
        decide (minD lows ≤ entry_price * (1 - stop_loss_pct / leverage))
    | TradeDirection.short =>
        decide (entry_price * (1 + stop_loss_pct / leverage) ≤ maxD highs)
  let hit_tp : Bool :=
    match direction with
    | TradeDirection.long =>
        decide (entry_price * (1 + take_profit_pct / leverage) ≤ maxD highs)
    | TradeDirection.short =>
        decide (minD lows ≤ entry_price * (1 - take_profit_pct / leverage))
  let exit_price := lastD prices
  let pnl :=
    match direction with
    | TradeDirection.long => (exit_price - entry_price) / entry_price * leverage
    | TradeDirection.short => (entry_price - exit_price) / entry_price * leverage
  let liquidation_threshold := (0.8 : ℚ) / leverage
  let was_liquidated : Bool := decide (liquidation_threshold ≤ max_drawdown)
  { pnl := pnl, max_drawdown := max_drawdown, was_stopped := was_stopped,
    hit_take_profit := hit_tp, was_liquidated := was_liquidated,
    hold_periods := hp, entry_price := entry_price, exit_price := exit_price }

/-- The split index `int(len(df) * train_ratio)` of `DataLoader.split_data`
(`int` equals floor on the non-negative products arising from a train
fraction in [0, 1]). -/
def splitIdx (df : List MarketRow) (train_frac : ℚ) : ℕ :=
  (⌊(df.length : ℚ) * train_frac⌋).toNat

/-- The `DataLoader.split_data` (data_loader.py lines 157-171): chronological
prefix/suffix split at `splitIdx`. -/
def split_data (df : List MarketRow) (train_frac : ℚ) :
    List MarketRow × List MarketRow :=
  (df.take (splitIdx df train_frac), df.drop (splitIdx df train_frac))

/-- The 14 feature columns of `DataLoader.get_feature_columns`, as row
projections, in source order. -/
def featureProjections : List (MarketRow → ℚ) :=
  [MarketRow.rsi_14, MarketRow.macd, MarketRow.macd_signal,
   MarketRow.macd_diff, MarketRow.bb_position, MarketRow.atr_normalized,
   MarketRow.adx, MarketRow.volume_ratio, MarketRow.momentum_1h,
   MarketRow.momentum_4h, MarketRow.momentum_24h, MarketRow.returns,
   MarketRow.stoch_k, MarketRow.stoch_d]

/-- Per-column mean computed by `StandardScaler.fit`. -/
def colMean (l : List ℚ) : ℚ := l.sum / l.length

/-- Per-column (biased) variance computed by `StandardScaler.fit`; the
scaler's `scale_` is the square root of this value, so the fitted scaler is
fully determined by these pairs. -/
def colVar (l : List ℚ) : ℚ := ((l.map fun x => (x - colMean l) ^ 2).sum) / l.length

/-- The scaler parameters fitted by `self.scaler.fit(train_df[feature_cols])`
inside `DataLoader.prepare_training_data` (data_loader.py line 190): one
(mean, variance) pair per feature column, computed from the train partition
only. -/
def fitScaler (train : List MarketRow) : List (ℚ × ℚ) :=
  featureProjections.map fun f => (colMean (train.map f), colVar (train.map f))

/-- Python string comparison (lexicographic on code points), on the
character lists of the compared strings. -/
def charListLe : List Char → List Char → Bool
  | [], _ => true
  | _ :: _, [] => false
  | a :: as, b :: bs =>
      if a.toNat < b.toNat then true
      else if b.toNat < a.toNat then false
      else charListLe as bs

/-- Ordered insertion used by `pySorted`. -/
def insertLe {α : Type} (le : α → α → Bool) (a : α) : List α → List α
  | [] => [a]
  | b :: bs => if le a b then a :: b :: bs else b :: insertLe le a bs

/-- Python `sorted(...)`: returns the input reordered ascending under `le`
(insertion sort; stable, and equal to the source's sort on every total
order). -/
def pySorted {α : Type} (le : α → α → Bool) (l : List α) : List α :=
  l.foldr (insertLe le) []

/-- The message of the explicit-step `FileNotFoundError`. -/
def checkpointMissingMsg (fname : List Char) : List Char :=
  "Checkpoint not found: ".data ++ fname

/-- The message of the no-checkpoints `FileNotFoundError`. -/
def noCheckpointsMsg : List Char :=
  "No checkpoints found".data

/-- The filename of the checkpoint at a given step, `model_step_` followed
by the decimal step and `.zip`, as written by
`TrainingHistoryManager.save_checkpoint` and matched by `load_checkpoint`. -/
def checkpoint_glob_name (step : ℕ) : List Char :=
  "model_step_".data ++ Nat.toDigits 10 step ++ ".zip".data

/-- The `TrainingHistoryManager.load_checkpoint` (training_history.py lines
367-390), abstracting the checkpoints directory as the set of step numbers
with a saved file: with an explicit `step` it returns that file or raises
`FileNotFoundError`; with `step = None` it sorts the glob matches with
Python `sorted` (lexicographic string order) and returns the last one,
raising `FileNotFoundError` when there are none. -/
def load_checkpoint (steps : List ℕ) (step : Option ℕ) :
    Except (List Char) (List Char) :=
  match step with
  | some s =>
      if s ∈ steps then Except.ok (checkpoint_glob_name s)
      else Except.error (checkpointMissingMsg (checkpoint_glob_name s))
  | none =>
      let files := pySorted charListLe (steps.map checkpoint_glob_name)
      match files.getLast? with
      | some f => Except.ok f
      | none => Except.error noCheckpointsMsg

/-- A wall-clock timestamp at the second resolution used by
`datetime.now().strftime("%Y%m%d_%H%M%S")`. -/
structure PyTimestamp where
  year : ℕ
  month : ℕ
  day : ℕ
  hour : ℕ
  minute : ℕ
  second : ℕ
deriving DecidableEq, Repr

/-- Zero-pad the decimal digits of `n` to width `w` (strftime field
padding). -/
def padLeft (w n : ℕ) : List Char :=
  let d := Nat.toDigits 10 n
  List.replicate (w - d.length) '0' ++ d

/-- The run id allocated by `TrainingHistoryManager.create_run`
(training_history.py line 186): `run_` followed by the strftime
`%Y%m%d_%H%M%S` rendering of the current wall-clock second; no counter,
process id, or sub-second component takes part. -/
def create_run_id (now : PyTimestamp) : List Char :=
  "run_".data ++ padLeft 4 now.year ++ padLeft 2 now.month ++
    padLeft 2 now.day ++ "_".data ++ padLeft 2 now.hour ++
    padLeft 2 now.minute ++ padLeft 2 now.second

/-- A strictly increasing synthetic price row: close/high/low rise by `0.5`
per index (the spec's end-to-end scenario 2 series), all indicators `0`. -/
def incRow (k : ℕ) : MarketRow :=
  { close := 100 + (k : ℚ) / 2, high := 100 + (k : ℚ) / 2,
    low := 100 + (k : ℚ) / 2, rsi_14 := 0, macd := 0, macd_signal := 0,
    macd_diff := 0, bb_position := 0, atr_normalized := 0, adx := 0,
    volume_ratio := 0, momentum_1h := 0, momentum_4h := 0, momentum_24h := 0,
    returns := 0, stoch_k := 0, stoch_d := 0 }

/-- Twenty rows of the strictly increasing series. -/
def incSeries : List MarketRow := (List.range 20).map incRow

/-- One entry of `self.episode_trades` (environment.py lines 369-374). -/
structure EpisodeTrade where
  step : ℕ
  action : ℤ
  outcome_pnl : ℚ
  reward : ℚ
deriving DecidableEq, Repr

/-- The `TradeApprovalEnv` (environment.py): configuration plus the mutable
episode state touched by `reset`/`step`. The detailed-tracking dictionaries
(`_action_counts`, `_trade_outcomes`, `_portfolio_tracking`,
`_reward_breakdown`) are pure logging sinks that never feed back into the
dynamics and are not modelled. -/
structure TradeApprovalEnv where
  data : Option (List MarketRow)
  max_steps : ℕ
  hold_periods : ℕ
  initial_balance : ℚ
  max_leverage : ℚ
  current_step : ℕ
  current_idx : ℕ
  balance : ℚ
  portfolio_state : PortfolioState
  episode_rewards : List ℚ
  episode_trades : List EpisodeTrade

/-- The `TradeApprovalEnv._get_initial_portfolio_state`. -/
def initialPortfolioState (initial_balance : ℚ) : PortfolioState :=
  { account_value := initial_balance, current_leverage := 0,
    margin_usage := 0, num_positions := 0, liquidation_distance := 1,
    health_score := 100 }

/-- The portfolio dictionary written by `TradeApprovalEnv._update_portfolio`
(environment.py lines 246-254): every field except `account_value` and
`health_score` is reset to a constant, and both of those are functions of
the balance alone. -/
def balancePortfolioState (balance initial_balance : ℚ) : PortfolioState :=
  { account_value := balance, current_leverage := 0, margin_usage := 0,
    num_positions := 0, liquidation_distance := 1,
    health_score := min 100 (max 0 (balance / initial_balance * 100)) }

/-- The `TradeApprovalEnv.__init__`. -/
def TradeApprovalEnv.make (data : Option (List MarketRow))
    (max_steps hold_periods : ℕ) (initial_balance max_leverage : ℚ) :
    TradeApprovalEnv :=
  { data := data, max_steps := max_steps, hold_periods := hold_periods,
    initial_balance := initial_balance, max_leverage := max_leverage,
    current_step := 0, current_idx := 0, balance := initial_balance,
    portfolio_state := initialPortfolioState initial_balance,
    episode_rewards := [], episode_trades := [] }

/-- The `TradeApprovalEnv._get_dummy_proposal`. -/
def TradeApprovalEnv.dummyProposal (e : TradeApprovalEnv) : TradeProposal :=
  { size := e.balance * 0.1, leverage := 1, confidence := 0.5, z_score := 0,
    direction := TradeDirection.long, account_value := e.balance }

/-- The `TradeApprovalEnv._generate_trade_proposal` (environment.py lines
138-176). -/
def TradeApprovalEnv.generateTradeProposal (e : TradeApprovalEnv) :
    TradeProposal :=
  match e.data with
  | none => e.dummyProposal
  | some df =>
      if df.length ≤ e.current_idx then e.dummyProposal
      else
        let row := df.getD e.current_idx default
        let signal_strength := |row.macd_diff| * 10 + |row.momentum_1h| * 5
        let confidence := min 0.9 (0.3 + signal_strength * 0.1)
        let z_score := row.bb_position
        let base_size := e.balance * 0.1
        let size := base_size * (0.5 + confidence)
        let leverage := min e.max_leverage (max 1 (2 - row.atr_normalized * 50))
        let direction := if 0 < row.macd_diff ∧ 0 < row.momentum_1h
                         then TradeDirection.long else TradeDirection.short
        { size := size, leverage := leverage, confidence := confidence,
          z_score := z_score, direction := direction,
          account_value := e.balance }

/-- The `TradeApprovalEnv._get_observation` (environment.py lines 190-200):
falls back to the all-zero dummy state when no data row exists at
`current_idx`. -/
def TradeApprovalEnv.getObservation (e : TradeApprovalEnv) : List ℚ :=
  match e.data with
  | none => List.replicate 24 0
  | some df =>
      if df.length ≤ e.current_idx then List.replicate 24 0
      else encode e.portfolio_state e.generateTradeProposal
            (df.getD e.current_idx default) true

/-- The `TradeApprovalEnv._simulate_outcome` (environment.py lines 202-233):
neutral outcome without data, otherwise the forward simulation at
`current_idx` with the proposal's direction and leverage and the
environment's hold window (default stop/take-profit percentages). -/
def TradeApprovalEnv.simulateOutcome (e : TradeApprovalEnv) : TradeOutcome :=
  match e.data with
  | none =>
      { pnl := 0, max_drawdown := 0, was_liquidated := false,
        was_stopped := false, hit_take_profit := false, hold_periods := 0 }
  | some df =>
      let proposal := e.generateTradeProposal
      let o := simulate_trade_outcome df e.current_idx proposal.direction
                proposal.leverage e.hold_periods 0.05 0.1
      { pnl := o.pnl, max_drawdown := o.max_drawdown,
        was_liquidated := o.was_liquidated, was_stopped := o.was_stopped,
        hit_take_profit := o.hit_take_profit, hold_periods := o.hold_periods }

/-- The `TradeApprovalEnv._update_portfolio` (environment.py lines 235-254). -/
def TradeApprovalEnv.updatePortfolioState (e : TradeApprovalEnv) (action : ℤ)
    (outcome : TradeOutcome) : TradeApprovalEnv :=
  let balance2 :=
    if action = 1 ∨ action = 2 then
      if outcome.was_liquidated = false then
        e.balance + e.balance * outcome.pnl * 0.1
      else e.balance * 0.9
    else e.balance
  { e with
    balance := balance2
    portfolio_state := balancePortfolioState balance2 e.initial_balance }

/-- The tuple returned by `TradeApprovalEnv.step`, with the updated
environment made explicit. -/
structure StepResult where
  env : TradeApprovalEnv
  observation : List ℚ
  reward : ℚ
  terminated : Bool
  truncated : Bool

/-- The `TradeApprovalEnv.step` (environment.py lines 344-412): simulate the
outcome, compute the reward from the pre-step portfolio health, update the
portfolio, append the episode trackers, advance the counters, then derive
`terminated` (balance at or below 10% of the initial balance) and — only
otherwise — `truncated` (end of data first, then the step cap), and return
the post-step observation. -/
def TradeApprovalEnv.step (e : TradeApprovalEnv) (action : ℤ) : StepResult :=
  let outcome := e.simulateOutcome
  let portfolio_health := e.portfolio_state.health_score / 100
  let reward := defaultRewardCalculator.calculate_reward action outcome
                  portfolio_health
  let e1 := e.updatePortfolioState action outcome
  let e2 := { e1 with
    episode_rewards := e1.episode_rewards ++ [reward]
    episode_trades := e1.episode_trades ++
      [{ step := e.current_step, action := action,
         outcome_pnl := outcome.pnl, reward := reward }]
    current_step := e.current_step + 1
    current_idx := e.current_idx + 1 }
  let terminated : Bool := decide (e2.balance ≤ e.initial_balance * 0.1)
  let truncated : Bool :=
    if terminated then false
    else
      match e.data with
      | some df =>
          if (df.length : ℤ) - (e.hold_periods : ℤ) ≤ (e2.current_idx : ℤ)
          then true
          else decide (e.max_steps ≤ e2.current_step)
      | none => decide (e.max_steps ≤ e2.current_step)
  { env := e2, observation := e2.getObservation, reward := reward,
    terminated := terminated, truncated := truncated }

/-- The `max_start` of `TradeApprovalEnv.reset` (environment.py line 331). -/
def maxStart (len max_steps hold_periods : ℕ) : ℕ :=
  len - max_steps - hold_periods - 1

/-- The `TradeApprovalEnv.reset` (environment.py lines 302-342): `draw` stands
for the value of `np_random.integers(0, max(1, max_start))`, which the
source draws uniformly from `[0, max(1, max_start))`; theorems about the
random branch therefore constrain `draw < max 1 (maxStart ...)`. -/
def TradeApprovalEnv.reset (e : TradeApprovalEnv) (draw : ℕ)
    (start_idx : Option ℕ) : TradeApprovalEnv :=
  let base := { e with
    current_step := 0
    balance := e.initial_balance
    portfolio_state := initialPortfolioState e.initial_balance
    episode_rewards := ([] : List ℚ)
    episode_trades := ([] : List EpisodeTrade) }
  match start_idx with
  | some s => { base with current_idx := s }
  | none =>
      match e.data with
      | some _ => { base with current_idx := draw }
      | none => { base with current_idx := 0 }

/-- The `get_episode_stats()["num_trades"]` (environment.py line 446):
`len(self.episode_trades)`. -/
def TradeApprovalEnv.numTrades (e : TradeApprovalEnv) : ℕ :=
  e.episode_trades.length

/-- Iterated `step` with a fixed action, keeping the environment. -/
def TradeApprovalEnv.iterateSteps (e : TradeApprovalEnv) (action : ℤ) :
    ℕ → TradeApprovalEnv
  | 0 => e
  | n + 1 => ((e.iterateSteps action n).step action).env

/-- The dataframe row indices `DataLoader.simulate_trade_outcome` reads
when entered at `entry` with hold window `hold` on a dataframe of length
`len`: `df.iloc[entry_idx]` for the entry price and the slice
`df.iloc[entry : entry + hp + 1]` for the close/high/low paths, where `hp`
is the clamped hold window. -/
def simAccessedIndices (len entry hold : ℕ) : List ℕ :=
  let hp := if len ≤ entry + hold then len - entry - 1 else hold
  entry :: (List.range (hp + 1)).map (entry + ·)

/-- The dataframe row indices read by one `step(action)` call from market
index `idx`: `_generate_trade_proposal`/`_get_observation` read
`df.iloc[idx]` only behind their `idx < len` guard, `_simulate_outcome`
reads the simulation window at `idx`, and the post-step observation reads
`df.iloc[idx + 1]` only behind the same guard (otherwise the dummy state is
returned and no row is touched). -/
def stepAccessedIndices (len idx hold : ℕ) : List ℕ :=
  (if idx < len then [idx] else []) ++ simAccessedIndices len idx hold ++
    (if idx + 1 < len then [idx + 1] else [])

/-- A constant price row: close/high/low all `100`, indicators `0`. -/
def constRow : MarketRow :=
  { close := 100, high := 100, low := 100, rsi_14 := 0, macd := 0,
    macd_signal := 0, macd_diff := 0, bb_position := 0, atr_normalized := 0,
    adx := 0, volume_ratio := 0, momentum_1h := 0, momentum_4h := 0,
    momentum_24h := 0, returns := 0, stoch_k := 0, stoch_d := 0 }

/-- Thirty constant rows: enough data for a 10-step episode with a 12-row
hold window. -/
def scenarioData : List MarketRow := List.replicate 30 constRow

/-- The scenario environment of end-to-end scenario 4: `max_steps = 10`,
`hold_periods = 12`, initial balance `10000`, max leverage `3`, reset to
start index `0`. -/
def scenarioEnv : TradeApprovalEnv :=
  (TradeApprovalEnv.make (some scenarioData) 10 12 10000 3).reset 0 (some 0)

/-- The episode invariant of the scenario run: after `k` approval steps the
configuration is untouched, the counters both read `k`, the balance is
still `10000`, and `k` trades are on record. -/
def scenarioInv (k : ℕ) (s : TradeApprovalEnv) : Prop :=
  s.data = some scenarioData ∧ s.max_steps = 10 ∧ s.hold_periods = 12 ∧
    s.initial_balance = 10000 ∧ s.max_leverage = 3 ∧ s.current_step = k ∧
    s.current_idx = k ∧ s.balance = 10000 ∧ s.episode_trades.length = k

/-- A clipped value lies between its bounds whenever the bounds are ordered. -/
theorem npClip_le (x lo hi : ℚ) (h : lo ≤ hi) :
    lo ≤ npClip x lo hi ∧ npClip x lo hi ≤ hi :=
  ⟨le_min h (le_max_right x lo), min_le_left hi (max x lo)⟩

/-- The `low` bounds array written out elementwise. -/
theorem observationLow_eq :
    observationLow =
      [0, 0, 0, 0, 0, 0, 0, 0, 0, -1,
       -3, -3, -3, -3, -3, -3, -3, -3, -3, -3, -3, -3, -3, -3] := rfl

/-- The `high` bounds array written out elementwise. -/
theorem observationHigh_eq :
    observationHigh =
      [1, 1, 1, 1, 1, 1, 1, 1, 1, 1,
       3, 3, 3, 3, 3, 3, 3, 3, 3, 3, 3, 3, 3, 3] := rfl

/-- A `clip(x, -3, 3) / 3` market feature lies in `[-3, 3]`. -/
theorem clip3_pair (x : ℚ) :
    -3 ≤ npClip x (-3) 3 / 3 ∧ npClip x (-3) 3 / 3 ≤ 3 := by
  have h := npClip_le x (-3) 3 (by norm_num)
  constructor <;> linarith [h.1, h.2]

/-- A `clip(x, -2, 2) / 2` market feature lies in `[-3, 3]`. -/
theorem clip2_pair (x : ℚ) :
    -3 ≤ npClip x (-2) 2 / 2 ∧ npClip x (-2) 2 / 2 ≤ 3 := by
  have h := npClip_le x (-2) 2 (by norm_num)
  constructor <;> linarith [h.1, h.2]

/-- A `(x - 50) / 50` recentred oscillator lies in `[-3, 3]` for raw values
in `[0, 100]`. -/
theorem center50_pair (x : ℚ) (h0 : 0 ≤ x) (h1 : x ≤ 100) :
    -3 ≤ (x - 50) / 50 ∧ (x - 50) / 50 ≤ 3 := by
  constructor <;> linarith

/-- A `x / 50 - 1` recentred ADX lies in `[-3, 3]` for raw values in
`[0, 100]`. -/
theorem adx_pair (x : ℚ) (h0 : 0 ≤ x) (h1 : x ≤ 100) :
    -3 ≤ x / 50 - 1 ∧ x / 50 - 1 ≤ 3 := by
  constructor <;> linarith

/-- Claim C2 (counterexample): with `already_normalized = true` the 14
market features are passed through unclipped, so a row with `rsi_14 = 10`
(plausible raw-oscillator scale) produces observation element 10 with value
`10 > 3`, outside the declared `[-3, 3]` bound. -/
theorem claim2_counterexample :
    ¬ allWithin observationLow observationHigh
        (encode ⟨10000, 1, 0, 0, 1, 100⟩
          ⟨1000, 2, 0.5, 0, TradeDirection.long, 10000⟩
          ⟨100, 101, 99, 10, 0, 0, 0, 0, 0, 0, 0, 0, 0, 0, 0, 0, 0⟩
          true) := by
  intro h
  simp only [observationLow_eq, observationHigh_eq, encode, encode_portfolio_features,
    encode_trade_proposal, encode_market_conditions, List.cons_append,
    List.nil_append, allWithin, if_pos rfl] at h
  have h10 := h.2.2.2.2.2.2.2.2.2.2.1
  norm_num at h10

/-- Claim C2 (amended): the 6 portfolio features and 4 trade features are
always clipped into their declared bounds (for positive account value), and
with `already_normalized = false` all 24 elements, including the 14 market
features, lie within the declared bounds provided the raw oscillator inputs
(`rsi_14`, `adx`, `stoch_k`, `stoch_d`) are on their natural `[0, 100]`
scale; with `already_normalized = true` the market features pass through
unclipped and the claim's `[-3, 3]` guarantee does not hold. -/
theorem claim2_encode_bounds (p : PortfolioState) (t : TradeProposal)
    (m : MarketRow) (_hacct : 0 < t.account_value) :
    allWithin observationLow observationHigh
      (encode_portfolio_features p ++ encode_trade_proposal t) ∧
    (0 ≤ m.rsi_14 → m.rsi_14 ≤ 100 → 0 ≤ m.adx → m.adx ≤ 100 →
     0 ≤ m.stoch_k → m.stoch_k ≤ 100 → 0 ≤ m.stoch_d → m.stoch_d ≤ 100 →
     allWithin observationLow observationHigh (encode p t m false)) := by
  constructor
  · simp only [observationLow_eq, observationHigh_eq, encode_portfolio_features,
      encode_trade_proposal, List.cons_append, List.nil_append, allWithin]
    exact ⟨npClip_le _ 0 1 (by norm_num), npClip_le _ 0 1 (by norm_num),
      npClip_le _ 0 1 (by norm_num), npClip_le _ 0 1 (by norm_num),
      npClip_le _ 0 1 (by norm_num), npClip_le _ 0 1 (by norm_num),
      npClip_le _ 0 1 (by norm_num), npClip_le _ 0 1 (by norm_num),
      npClip_le _ 0 1 (by norm_num), npClip_le _ (-1) 1 (by norm_num),
      trivial⟩
  · intro hr0 hr1 ha0 ha1 hk0 hk1 hd0 hd1
    simp only [observationLow_eq, observationHigh_eq, encode,
      encode_portfolio_features, encode_trade_proposal, encode_market_conditions,
      List.cons_append, List.nil_append, allWithin, Bool.false_eq_true,
      if_false]
    exact ⟨npClip_le _ 0 1 (by norm_num), npClip_le _ 0 1 (by norm_num),
      npClip_le _ 0 1 (by norm_num), npClip_le _ 0 1 (by norm_num),
      npClip_le _ 0 1 (by norm_num), npClip_le _ 0 1 (by norm_num),
      npClip_le _ 0 1 (by norm_num), npClip_le _ 0 1 (by norm_num),
      npClip_le _ 0 1 (by norm_num), npClip_le _ (-1) 1 (by norm_num),
      center50_pair _ hr0 hr1, clip3_pair _, clip3_pair _, clip3_pair _,
      clip2_pair _, clip3_pair _, adx_pair _ ha0 ha1, clip2_pair _,
      clip3_pair _, clip3_pair _, clip3_pair _, clip3_pair _,
      center50_pair _ hk0 hk1, center50_pair _ hd0 hd1, trivial⟩

/-- Claim C2 (witness): the amended bounds instantiated at a concrete
portfolio, proposal and un-normalized market row. -/
theorem claim2_encode_bounds_witness :
    (0 : ℚ) < 10000 ∧
    allWithin observationLow observationHigh
      (encode_portfolio_features ⟨10000, 1, 0, 0, 1, 100⟩ ++
        encode_trade_proposal ⟨1000, 2, 0.5, 0, TradeDirection.long, 10000⟩) :=
  ⟨by norm_num,
   (claim2_encode_bounds ⟨10000, 1, 0, 0, 1, 100⟩
     ⟨1000, 2, 0.5, 0, TradeDirection.long, 10000⟩
     ⟨100, 101, 99, 55, 0, 0, 0, 0, 0, 20, 1, 0, 0, 0, 0, 50, 50⟩
     (by norm_num)).1⟩

/-- Claim C1 (counterexample): at action `APPROVE = 2`, outcome
`pnl = 0.1, max_drawdown = 0, not liquidated, not stopped, hit_take_profit`,
and `portfolio_health = 0`, the breakdown components (excluding `total`) sum
to `1` while `calculate_reward` returns `1.2` (the `+0.2` take-profit bonus
has no breakdown component), so the claimed equality fails. -/
theorem claim1_counterexample :
    (defaultRewardCalculator.get_reward_breakdown 2
        ⟨0.1, 0, false, false, true, 0⟩ 0).componentSum ≠
      defaultRewardCalculator.calculate_reward 2
        ⟨0.1, 0, false, false, true, 0⟩ 0 := by
  norm_num [RewardCalculator.get_reward_breakdown,
    RewardCalculator.calculate_reward, RewardBreakdown.componentSum,
    RewardBreakdown.zero, defaultRewardCalculator, ACTION_REJECT,
    ACTION_APPROVE_WARNING, ACTION_APPROVE]

/-- Claim C1 (amended): for action in `{0, 1, 2}`, the breakdown component
values (excluding `total`) sum to `calculate_reward` on the same inputs
whenever none of the three adjustments absent from the breakdown fires: the
stop-loss-at-a-loss penalty, the take-profit bonus (both reachable only for
approved, non-liquidated outcomes), and the approve-with-warning caution
penalty on a profitable outcome. -/
theorem claim1_breakdown_sum (c : RewardCalculator) (action : ℤ)
    (t : TradeOutcome) (h : ℚ)
    (hact : action = 0 ∨ action = 1 ∨ action = 2)
    (hstop : action ≠ 0 → t.was_liquidated = false →
      ¬(t.was_stopped = true ∧ t.pnl < 0))
    (htp : action ≠ 0 → t.was_liquidated = false → t.hit_take_profit = false)
    (hwarn : action = 1 → ¬(0 < t.pnl)) :
    (c.get_reward_breakdown action t h).componentSum =
      c.calculate_reward action t h := by
  rcases hact with h0 | h1 | h2
  · subst h0
    simp only [RewardCalculator.calculate_reward,
      RewardCalculator.get_reward_breakdown, RewardBreakdown.componentSum,
      RewardBreakdown.zero, ACTION_REJECT, ACTION_APPROVE_WARNING,
      ACTION_APPROVE]
    norm_num
    split_ifs <;> ring
  · subst h1
    have hs := hstop (by norm_num)
    have ht := htp (by norm_num)
    have hw := hwarn rfl
    simp only [RewardCalculator.calculate_reward,
      RewardCalculator.get_reward_breakdown, RewardBreakdown.componentSum,
      RewardBreakdown.zero, ACTION_REJECT, ACTION_APPROVE_WARNING,
      ACTION_APPROVE]
    norm_num
    split_ifs <;> try ring
    all_goals simp_all
  · subst h2
    have hs := hstop (by norm_num)
    have ht := htp (by norm_num)
    simp only [RewardCalculator.calculate_reward,
      RewardCalculator.get_reward_breakdown, RewardBreakdown.componentSum,
      RewardBreakdown.zero, ACTION_REJECT, ACTION_APPROVE_WARNING,
      ACTION_APPROVE]
    norm_num
    split_ifs <;> try ring
    all_goals simp_all

/-- Claim C1 (witness): the amended equality instantiated at `APPROVE`,
a losing, non-stopped, non-take-profit outcome, and healthy portfolio. -/
theorem claim1_breakdown_sum_witness :
    ((2 : ℤ) = 0 ∨ (2 : ℤ) = 1 ∨ (2 : ℤ) = 2) ∧
    (defaultRewardCalculator.get_reward_breakdown 2
        ⟨-0.2, 0.1, false, false, false, 3⟩ 1).componentSum =
      defaultRewardCalculator.calculate_reward 2
        ⟨-0.2, 0.1, false, false, false, 3⟩ 1 :=
  ⟨by norm_num,
   claim1_breakdown_sum defaultRewardCalculator 2
     ⟨-0.2, 0.1, false, false, false, 3⟩ 1 (by norm_num) (by simp)
     (by simp) (fun hc => absurd hc (by norm_num))⟩

/-- Claim C5: with the default constants, approving (with or without
warning) an outcome that was liquidated yields a reward at most
`liquidation_penalty + health_bonus = -5 + 0.1 = -4.9`, for every
portfolio-health value. -/
theorem claim5_liquidation_dominates (action : ℤ) (t : TradeOutcome) (h : ℚ)
    (hliq : t.was_liquidated = true)
    (hact : action = ACTION_APPROVE_WARNING ∨ action = ACTION_APPROVE) :
    defaultRewardCalculator.calculate_reward action t h ≤
      defaultRewardCalculator.liquidation_penalty +
        defaultRewardCalculator.health_bonus := by
  rcases hact with h1 | h2
  · subst h1
    simp only [RewardCalculator.calculate_reward, defaultRewardCalculator,
      ACTION_REJECT, ACTION_APPROVE_WARNING, ACTION_APPROVE, hliq]
    norm_num
    split_ifs <;> norm_num
  · subst h2
    simp only [RewardCalculator.calculate_reward, defaultRewardCalculator,
      ACTION_REJECT, ACTION_APPROVE_WARNING, ACTION_APPROVE, hliq]
    norm_num
    split_ifs <;> norm_num

/-- Claim C5 (witness): the bound instantiated at `APPROVE` of a liquidated
outcome with unhealthy portfolio: the reward is `-5 ≤ -4.9`. -/
theorem claim5_liquidation_dominates_witness :
    (⟨-0.5, 0.6, true, true, false, 4⟩ : TradeOutcome).was_liquidated = true ∧
    defaultRewardCalculator.calculate_reward 2
        ⟨-0.5, 0.6, true, true, false, 4⟩ 0 ≤
      defaultRewardCalculator.liquidation_penalty +
        defaultRewardCalculator.health_bonus :=
  ⟨rfl, claim5_liquidation_dominates 2 ⟨-0.5, 0.6, true, true, false, 4⟩ 0 rfl
    (Or.inr rfl)⟩

/-- Indexing into a dropped-then-taken window reads the underlying row. -/
theorem getD_take_drop (df : List MarketRow) (e k n : ℕ) (hk : k < n)
    (he : e + k < df.length) :
    ((df.drop e).take n).getD k default = df.getD (e + k) default := by
  simp [List.getD_eq_getElem?_getD, List.getElem?_take, hk,
    List.getElem?_drop, List.getElem?_eq_getElem he]

/-- The `getD` through `map` for in-range indices. -/
theorem map_getD_eq (l : List MarketRow) (f : MarketRow → ℚ) (k : ℕ)
    (h : k < l.length) :
    (l.map f).getD k 0 = f (l.getD k default) := by
  simp [List.getD_eq_getElem?_getD, List.getElem?_map,
    List.getElem?_eq_getElem h]

/-- Length of the simulation window when it fits inside the dataframe. -/
theorem window_length (df : List MarketRow) (e n : ℕ) (h : e + n ≤ df.length) :
    ((df.drop e).take n).length = n := by
  rw [List.length_take, List.length_drop]; omega

/-- The final close of the simulation window is row `e + h`'s close. -/
theorem window_last_close (df : List MarketRow) (e h : ℕ)
    (hlen : e + h < df.length) :
    lastD (((df.drop e).take (h + 1)).map MarketRow.close) =
      closeAt df (e + h) := by
  have hw : ((df.drop e).take (h + 1)).length = h + 1 :=
    window_length df e (h + 1) (by omega)
  rw [lastD, List.length_map, hw]
  simp only [Nat.add_sub_cancel]
  rw [map_getD_eq _ _ _ (by rw [hw]; omega),
    getD_take_drop df e h (h + 1) (by omega) hlen]
  rfl

/-- The close of row `i` of the strictly increasing series. -/
theorem closeAt_incSeries (i : ℕ) (h : i < 20) :
    closeAt incSeries i = 100 + (i : ℚ) / 2 := by
  rw [closeAt, incSeries, List.getD_eq_getElem?_getD, List.getElem?_map,
    List.getElem?_range h]
  rfl

/-- The strictly increasing series is strictly increasing in close. -/
theorem incSeries_mono :
    ∀ j, j < incSeries.length → ∀ i, i < j →
      closeAt incSeries i < closeAt incSeries j := by
  have hl : incSeries.length = 20 := by simp [incSeries]
  intro j hj i hij
  rw [hl] at hj
  rw [closeAt_incSeries i (by omega), closeAt_incSeries j hj]
  have hq : (i : ℚ) < j := by exact_mod_cast hij
  linarith

/-- Claim C7: when the hold window fits strictly inside the dataframe and
leverage is positive, `simulate_trade_outcome` exits at the close
`hold_periods` rows after entry (stop/take-profit flags never move the
exit), returns the leveraged close-to-close return (negated for a short),
reports liquidation exactly when `max_drawdown ≥ 0.8 / leverage`, and on a
strictly increasing close series a long trade has positive pnl. -/
theorem claim7_simulated_outcome (df : List MarketRow) (entry hold : ℕ)
    (dir : TradeDirection) (lev sl tp : ℚ)
    (hlen : entry + hold < df.length) (hlev : 0 < lev) :
    (simulate_trade_outcome df entry dir lev hold sl tp).exit_price =
      closeAt df (entry + hold) ∧
    (dir = TradeDirection.long →
      (simulate_trade_outcome df entry dir lev hold sl tp).pnl =
        (closeAt df (entry + hold) - closeAt df entry) /
          closeAt df entry * lev) ∧
    (dir = TradeDirection.short →
      (simulate_trade_outcome df entry dir lev hold sl tp).pnl =
        -((closeAt df (entry + hold) - closeAt df entry) /
          closeAt df entry * lev)) ∧
    ((simulate_trade_outcome df entry dir lev hold sl tp).was_liquidated =
        true ↔
      0.8 / lev ≤
        (simulate_trade_outcome df entry dir lev hold sl tp).max_drawdown) ∧
    (simulate_trade_outcome df entry dir lev hold sl tp).hold_periods =
      hold ∧
    (dir = TradeDirection.long →
      (∀ j, j < df.length → ∀ i, i < j → closeAt df i < closeAt df j) →
      0 < closeAt df entry → 0 < hold →
      0 < (simulate_trade_outcome df entry dir lev hold sl tp).pnl) := by
  have hnc : ¬ (df.length ≤ entry + hold) := by omega
  have hexit :
      (simulate_trade_outcome df entry dir lev hold sl tp).exit_price =
        closeAt df (entry + hold) := by
    simp only [simulate_trade_outcome, if_neg hnc]
    exact window_last_close df entry hold hlen
  have hpnlL : dir = TradeDirection.long →
      (simulate_trade_outcome df entry dir lev hold sl tp).pnl =
        (closeAt df (entry + hold) - closeAt df entry) /
          closeAt df entry * lev := by
    intro hdir
    subst hdir
    simp only [simulate_trade_outcome, if_neg hnc]
    rw [window_last_close df entry hold hlen]
    rfl
  have hpnlS : dir = TradeDirection.short →
      (simulate_trade_outcome df entry dir lev hold sl tp).pnl =
        -((closeAt df (entry + hold) - closeAt df entry) /
          closeAt df entry * lev) := by
    intro hdir
    subst hdir
    simp only [simulate_trade_outcome, if_neg hnc]
    rw [window_last_close df entry hold hlen]
    show (closeAt df entry - closeAt df (entry + hold)) /
        closeAt df entry * lev = _
    ring
  refine ⟨hexit, hpnlL, hpnlS, ?_, ?_, ?_⟩
  · cases dir <;>
      simp only [simulate_trade_outcome, if_neg hnc, decide_eq_true_iff]
  · simp only [simulate_trade_outcome, if_neg hnc]
  · intro hdir hmono hpos hhold
    rw [hpnlL hdir]
    have hlt : closeAt df entry < closeAt df (entry + hold) :=
      hmono (entry + hold) hlen entry (by omega)
    have h1 : 0 < closeAt df (entry + hold) - closeAt df entry := by linarith
    exact mul_pos (div_pos h1 hpos) hlev

/-- Claim C7 (witness): a long trade over 10 hold periods of the strictly
increasing 20-row series with leverage 2 has positive pnl. -/
theorem claim7_simulated_outcome_witness :
    0 + 10 < incSeries.length ∧ (0 : ℚ) < 2 ∧
    0 < (simulate_trade_outcome incSeries 0 TradeDirection.long 2 10
          0.05 0.1).pnl := by
  have hlen : 0 + 10 < incSeries.length := by simp [incSeries]
  refine ⟨hlen, by norm_num, ?_⟩
  exact (claim7_simulated_outcome incSeries 0 10 TradeDirection.long 2
      0.05 0.1 hlen (by norm_num)).2.2.2.2.2 rfl incSeries_mono
    (by rw [closeAt_incSeries 0 (by omega)]; norm_num) (by omega)

/-- Claim C8: the scaler fitted inside `prepare_training_data` and the
train partition it is applied to depend only on the rows before the
chronological split index: two equal-length datasets agreeing on those rows
yield identical fitted (mean, variance) pairs, and the transformed train
partition — the image of the train rows under any function of the fitted
scaler — is identical as well. -/
theorem claim8_scaler_noninterference (df1 df2 : List MarketRow) (frac : ℚ)
    (hlen : df1.length = df2.length)
    (hagree : ∀ i, i < splitIdx df1 frac →
      df1.getD i default = df2.getD i default) :
    fitScaler (split_data df1 frac).1 = fitScaler (split_data df2 frac).1 ∧
    ∀ transform : List (ℚ × ℚ) → MarketRow → List ℚ,
      ((split_data df1 frac).1).map
          (transform (fitScaler (split_data df1 frac).1)) =
        ((split_data df2 frac).1).map
          (transform (fitScaler (split_data df2 frac).1)) := by
  have hidx : splitIdx df1 frac = splitIdx df2 frac := by
    rw [splitIdx, splitIdx, hlen]
  have htake : df1.take (splitIdx df1 frac) = df2.take (splitIdx df2 frac) := by
    rw [← hidx]
    apply List.ext_getElem?
    intro n
    rw [List.getElem?_take, List.getElem?_take]
    split_ifs with hn
    · by_cases hl : n < df1.length
      · have hl2 : n < df2.length := by omega
        rw [List.getElem?_eq_getElem hl, List.getElem?_eq_getElem hl2]
        have h3 := hagree n hn
        rw [List.getD_eq_getElem?_getD, List.getD_eq_getElem?_getD,
          List.getElem?_eq_getElem hl, List.getElem?_eq_getElem hl2] at h3
        simp only [Option.getD_some] at h3
        rw [h3]
      · rw [List.getElem?_eq_none (by omega),
          List.getElem?_eq_none (by omega)]
    · rfl
  have hsplit : (split_data df1 frac).1 = (split_data df2 frac).1 := by
    simp only [split_data]
    exact htake
  exact ⟨by rw [hsplit], fun transform => by rw [hsplit]⟩

/-- Claim C8 (witness): two 5-row datasets sharing the first 4 rows (the
train partition at frac 0.8) but differing in the test row fit identical
scalers. -/
theorem claim8_scaler_noninterference_witness :
    ([incRow 0, incRow 1, incRow 2, incRow 3, incRow 4] :
        List MarketRow).length =
      ([incRow 0, incRow 1, incRow 2, incRow 3, incRow 9] :
        List MarketRow).length ∧
    fitScaler (split_data [incRow 0, incRow 1, incRow 2, incRow 3, incRow 4]
        0.8).1 =
      fitScaler (split_data [incRow 0, incRow 1, incRow 2, incRow 3, incRow 9]
        0.8).1 := by
  have h4 : splitIdx [incRow 0, incRow 1, incRow 2, incRow 3, incRow 4]
      (0.8 : ℚ) = 4 := by
    rw [splitIdx]
    norm_num
    rfl
  refine ⟨rfl,
    (claim8_scaler_noninterference
      [incRow 0, incRow 1, incRow 2, incRow 3, incRow 4]
      [incRow 0, incRow 1, incRow 2, incRow 3, incRow 9] 0.8 rfl ?_).1⟩
  intro i hi
  rw [h4] at hi
  interval_cases i <;> rfl

/-- Claim C3: with `step = None`, `load_checkpoint` picks the
lexicographically last glob match, so among checkpoints at steps
`{9, 50000}` it returns `model_step_9.zip`, not the step-50000 checkpoint
required by the claim (and by the source's own `Get latest checkpoint`
comment); with no checkpoints it raises the not-found error. -/
theorem claim3_lexicographic_not_latest :
    load_checkpoint [9, 50000] none =
      Except.ok (checkpoint_glob_name 9) ∧
    checkpoint_glob_name 9 ≠ checkpoint_glob_name 50000 ∧
    load_checkpoint ([] : List ℕ) none =
      Except.error noCheckpointsMsg := by
  exact ⟨rfl, by decide, rfl⟩

/-- Claim C4: `create_run` derives the run id solely from the wall-clock
second via `strftime("%Y%m%d_%H%M%S")`; two calls observing the same clock
second (the failing input) both produce `run_20250116_143022`, so the
returned ids are not distinct. -/
theorem claim4_same_second_collision :
    create_run_id ⟨2025, 1, 16, 14, 30, 22⟩ = "run_20250116_143022".data ∧
    ¬ (create_run_id ⟨2025, 1, 16, 14, 30, 22⟩ ≠
        create_run_id ⟨2025, 1, 16, 14, 30, 22⟩) := by
  exact ⟨by decide, fun h => h rfl⟩

/-- The `step` advances the step counter by exactly one. -/
theorem step_env_current_step (e : TradeApprovalEnv) (action : ℤ) :
    (e.step action).env.current_step = e.current_step + 1 := rfl

/-- The `step` advances the market index by exactly one. -/
theorem step_env_current_idx (e : TradeApprovalEnv) (action : ℤ) :
    (e.step action).env.current_idx = e.current_idx + 1 := rfl

/-- The `step` leaves the configuration fields untouched. -/
theorem step_env_config (e : TradeApprovalEnv) (action : ℤ) :
    (e.step action).env.data = e.data ∧
    (e.step action).env.max_steps = e.max_steps ∧
    (e.step action).env.hold_periods = e.hold_periods ∧
    (e.step action).env.initial_balance = e.initial_balance ∧
    (e.step action).env.max_leverage = e.max_leverage :=
  ⟨rfl, rfl, rfl, rfl, rfl⟩

/-- The `step` appends exactly one record to `episode_trades`. -/
theorem step_env_numTrades (e : TradeApprovalEnv) (action : ℤ) :
    (e.step action).env.numTrades = e.numTrades + 1 := by
  show (e.episode_trades ++ [_]).length = e.episode_trades.length + 1
  simp

/-- With `REJECT` the balance is not modified by `_update_portfolio`. -/
theorem step_balance_reject (e : TradeApprovalEnv) :
    (e.step 0).env.balance = e.balance := rfl

/-- After any step the portfolio dictionary is the balance-derived record of
`_update_portfolio`. -/
theorem step_env_portfolio_state (e : TradeApprovalEnv) (action : ℤ) :
    (e.step action).env.portfolio_state =
      balancePortfolioState ((e.step action).env.balance) e.initial_balance := rfl

/-- The `terminated` is the decision `balance <= initial_balance * 0.1` on the
post-step balance. -/
theorem step_terminated (e : TradeApprovalEnv) (action : ℤ) :
    (e.step action).terminated =
      decide ((e.step action).env.balance ≤ e.initial_balance * 0.1) := rfl

/-- The `truncated` from the source's `elif` cascade, with the data present. -/
theorem step_truncated (e : TradeApprovalEnv) (action : ℤ)
    (df : List MarketRow) (hdf : e.data = some df) :
    (e.step action).truncated =
      if (e.step action).terminated then false
      else
        if (df.length : ℤ) - (e.hold_periods : ℤ) ≤ ((e.current_idx + 1 : ℕ) : ℤ)
        then true
        else decide (e.max_steps ≤ e.current_step + 1) := by
  simp only [TradeApprovalEnv.step, hdf]

/-- Folding `min` over copies of the seed returns the seed. -/
theorem foldl_min_replicate (n : ℕ) (x : ℚ) :
    (List.replicate n x).foldl min x = x := by
  induction n with
  | zero => rfl
  | succ k ih => rw [List.replicate_succ, List.foldl_cons, min_self]; exact ih

/-- Folding `max` over copies of the seed returns the seed. -/
theorem foldl_max_replicate (n : ℕ) (x : ℚ) :
    (List.replicate n x).foldl max x = x := by
  induction n with
  | zero => rfl
  | succ k ih => rw [List.replicate_succ, List.foldl_cons, max_self]; exact ih

/-- The `minD` of a nonempty constant list. -/
theorem minD_replicate (n : ℕ) (x : ℚ) :
    minD (List.replicate (n + 1) x) = x := by
  rw [List.replicate_succ]
  show (List.replicate n x).foldl min x = x
  exact foldl_min_replicate n x

/-- The `maxD` of a nonempty constant list. -/
theorem maxD_replicate (n : ℕ) (x : ℚ) :
    maxD (List.replicate (n + 1) x) = x := by
  rw [List.replicate_succ]
  show (List.replicate n x).foldl max x = x
  exact foldl_max_replicate n x

/-- The `lastD` of a nonempty constant list. -/
theorem lastD_replicate (n : ℕ) (x : ℚ) :
    lastD (List.replicate (n + 1) x) = x := by
  rw [lastD, List.length_replicate, Nat.add_sub_cancel,
    List.getD_eq_getElem?_getD, List.getElem?_replicate]
  simp

/-- Every in-range row of the scenario data is the constant row. -/
theorem getD_scenarioData (i : ℕ) (h : i < 30) :
    scenarioData.getD i default = constRow := by
  rw [scenarioData, List.getD_eq_getElem?_getD, List.getElem?_replicate,
    if_pos h]
  rfl

/-- The simulation window over the scenario data is 13 constant rows. -/
theorem scenario_window (k : ℕ) (hk : k ≤ 17) :
    (scenarioData.drop k).take (12 + 1) = List.replicate 13 constRow := by
  rw [scenarioData, List.drop_replicate, List.take_replicate]
  congr 1
  omega

/-- On the constant scenario data every simulated trade with the
environment's 12-row hold window has zero pnl and is not liquidated. -/
theorem scenario_sim (k : ℕ) (hk : k ≤ 17) (dir : TradeDirection) (lev : ℚ)
    (hlev : 0 < lev) :
    (simulate_trade_outcome scenarioData k dir lev 12 0.05 0.1).pnl = 0 ∧
    (simulate_trade_outcome scenarioData k dir lev 12 0.05 0.1).was_liquidated
      = false := by
  have hlen : scenarioData.length = 30 := by
    rw [scenarioData, List.length_replicate]
  have hnc : ¬ (scenarioData.length ≤ k + 12) := by rw [hlen]; omega
  cases dir <;>
    simp only [simulate_trade_outcome, if_neg hnc, scenario_window k hk,
      List.map_replicate, getD_scenarioData k (by omega)] <;>
    constructor <;>
    rw [show (13 : ℕ) = 12 + 1 from rfl] <;>
    simp only [lastD_replicate, minD_replicate, maxD_replicate, constRow] <;>
    norm_num
  all_goals exact hlev

/-- On the scenario data every generated proposal is a short with leverage
2 (`macd_diff = momentum_1h = 0` and `atr_normalized = 0`). -/
theorem scenario_proposal (e : TradeApprovalEnv)
    (hdata : e.data = some scenarioData) (hml : e.max_leverage = 3)
    (hidx : e.current_idx < 30) :
    e.generateTradeProposal.direction = TradeDirection.short ∧
    e.generateTradeProposal.leverage = 2 := by
  have hlen : scenarioData.length = 30 := by
    rw [scenarioData, List.length_replicate]
  have hif : ¬ (scenarioData.length ≤ e.current_idx) := by rw [hlen]; omega
  simp only [TradeApprovalEnv.generateTradeProposal, hdata, if_neg hif,
    getD_scenarioData e.current_idx (by omega), constRow, hml]
  constructor
  · norm_num
  · norm_num

/-- The scenario invariant holds at the freshly reset environment. -/
theorem scenarioInv_zero : scenarioInv 0 scenarioEnv :=
  ⟨rfl, rfl, rfl, rfl, rfl, rfl, rfl, rfl, rfl⟩

/-- One `APPROVE` step in the scenario preserves the invariant, never
terminates, and truncates exactly when the step counter reaches 10. -/
theorem scenario_step (s : TradeApprovalEnv) (k : ℕ) (hk : k ≤ 9)
    (hs : scenarioInv k s) :
    scenarioInv (k + 1) ((s.step 2).env) ∧
    (s.step 2).terminated = false ∧
    (s.step 2).truncated = decide (10 ≤ k + 1) := by
  obtain ⟨hdata, hms, hhp, hib, hml, hcs, hci, hbal, htr⟩ := hs
  have hprop := scenario_proposal s hdata hml (by rw [hci]; omega)
  have houtcome : s.simulateOutcome.pnl = 0 ∧
      s.simulateOutcome.was_liquidated = false := by
    simp only [TradeApprovalEnv.simulateOutcome, hdata]
    rw [hci, hhp, hprop.1, hprop.2]
    exact scenario_sim k (by omega) TradeDirection.short 2 (by norm_num)
  have hbal2 : (s.step 2).env.balance = 10000 := by
    show (s.updatePortfolioState 2 s.simulateOutcome).balance = 10000
    simp only [TradeApprovalEnv.updatePortfolioState, houtcome.1, houtcome.2, hbal]
    norm_num
  have hterm : (s.step 2).terminated = false := by
    rw [step_terminated, hbal2, hib]
    exact decide_eq_false (by norm_num)
  have htrunc : (s.step 2).truncated = decide (10 ≤ k + 1) := by
    rw [step_truncated s 2 scenarioData hdata, hterm, hhp, hci, hms, hcs]
    have hlenz : ((scenarioData.length : ℤ)) = 30 := by
      rw [scenarioData, List.length_replicate]
      norm_num
    rw [hlenz, if_neg (by norm_num), if_neg (by push_cast; omega)]
  refine ⟨⟨?_, ?_, ?_, ?_, ?_, ?_, ?_, hbal2, ?_⟩, hterm, htrunc⟩
  · rw [(step_env_config s 2).1, hdata]
  · rw [(step_env_config s 2).2.1, hms]
  · rw [(step_env_config s 2).2.2.1, hhp]
  · rw [(step_env_config s 2).2.2.2.1, hib]
  · rw [(step_env_config s 2).2.2.2.2, hml]
  · rw [step_env_current_step, hcs]
  · rw [step_env_current_idx, hci]
  · have hnum := step_env_numTrades s 2
    unfold TradeApprovalEnv.numTrades at hnum
    rw [hnum, htr]

/-- Claim C6: after any `step(action)` call (with market data present),
`terminated` holds exactly when the updated balance is at most 10% of the
initial balance, and otherwise `truncated` holds exactly when the market
index has advanced to within `hold_periods` rows of the end of the data or
the step counter has reached `max_steps`; moreover the 10-step all-APPROVE
scenario run ends with `truncated = true`, `terminated = false`, and
`num_trades = 10`. -/
theorem claim6_termination_truncation (e : TradeApprovalEnv)
    (df : List MarketRow) (hdf : e.data = some df) (action : ℤ) :
    ((e.step action).terminated = true ↔
      (e.step action).env.balance ≤ e.initial_balance * 0.1) ∧
    ((e.step action).terminated = false →
      ((e.step action).truncated = true ↔
        ((df.length : ℤ) - (e.hold_periods : ℤ) ≤
            ((e.step action).env.current_idx : ℤ) ∨
          e.max_steps ≤ (e.step action).env.current_step))) ∧
    ((scenarioEnv.iterateSteps 2 9).step 2).truncated = true ∧
    ((scenarioEnv.iterateSteps 2 9).step 2).terminated = false ∧
    (scenarioEnv.iterateSteps 2 10).numTrades = 10 := by
  have hinv : ∀ k, k ≤ 10 → scenarioInv k (scenarioEnv.iterateSteps 2 k) := by
    intro k
    induction k with
    | zero => exact fun _ => scenarioInv_zero
    | succ n ih =>
        intro hn
        exact (scenario_step _ n (by omega) (ih (by omega))).1
  have h9 := hinv 9 (by omega)
  have hstep9 := scenario_step _ 9 (by omega) h9
  refine ⟨?_, ?_, ?_, hstep9.2.1, ?_⟩
  · rw [step_terminated]
    exact decide_eq_true_iff
  · intro hterm
    rw [step_truncated e action df hdf, hterm, step_env_current_idx,
      step_env_current_step]
    simp only [Bool.false_eq_true, if_false]
    by_cases hidx :
        (df.length : ℤ) - (e.hold_periods : ℤ) ≤ ((e.current_idx + 1 : ℕ) : ℤ)
    · simp [hidx]
    · simp [hidx, decide_eq_true_iff]
  · rw [hstep9.2.2]
    simp
  · show ((scenarioEnv.iterateSteps 2 9).step 2).env.numTrades = 10
    exact hstep9.1.2.2.2.2.2.2.2.2

/-- Claim C6 (witness): the termination equivalence instantiated at the
scenario environment with action `REJECT`. -/
theorem claim6_termination_truncation_witness :
    scenarioEnv.data = some scenarioData ∧
    ((scenarioEnv.step 0).terminated = true ↔
      (scenarioEnv.step 0).env.balance ≤ scenarioEnv.initial_balance * 0.1) :=
  ⟨rfl, (claim6_termination_truncation scenarioEnv scenarioData rfl 0).1⟩

/-- Claim C9: with data present and `len(data) > max_steps + hold_periods
+ 1`, every dataframe row index read during a `reset()`-then-`step()`
sequence is strictly below the data length — both for the explicit
maximum-safe start index `len - max_steps - hold_periods - 1` and for any
index the source's random draw can produce — and the post-step observation
guard returns the dummy state instead of reading a row when the index
would run off the end. -/
theorem claim9_no_out_of_bounds (len M H start : ℕ)
    (hlen : M + H + 1 < len)
    (hstart : start = maxStart len M H ∨ start < max 1 (maxStart len M H)) :
    (∀ i ∈ stepAccessedIndices len start H, i < len) ∧
    (∀ (e : TradeApprovalEnv) (df : List MarketRow), e.data = some df →
      df.length ≤ e.current_idx →
      e.getObservation = List.replicate 24 0) := by
  constructor
  · have hms : maxStart len M H = len - M - H - 1 := rfl
    have hbound : start + H < len := by
      rcases hstart with h | h
      · rw [hms] at h; omega
      · rw [hms] at h
        have h1 : (1 : ℕ) ≤ len - M - H - 1 := by omega
        rw [max_eq_right h1] at h
        omega
    intro i hi
    simp only [stepAccessedIndices] at hi
    rcases List.mem_append.mp hi with hi2 | hiC
    rotate_left
    · by_cases hc : start + 1 < len
      · rw [if_pos hc] at hiC
        simp only [List.mem_singleton] at hiC
        omega
      · rw [if_neg hc] at hiC
        simp at hiC
    rcases List.mem_append.mp hi2 with hiA | hiB
    · by_cases hc : start < len
      · rw [if_pos hc] at hiA
        simp only [List.mem_singleton] at hiA
        omega
      · rw [if_neg hc] at hiA
        simp at hiA
    · simp only [simAccessedIndices,
        if_neg (show ¬ (len ≤ start + H) by omega), List.mem_cons,
        List.mem_map, List.mem_range] at hiB
      rcases hiB with hiB | ⟨a, ha, hia⟩
      · omega
      · omega
  · intro e df hdf hge
    simp only [TradeApprovalEnv.getObservation, hdf, if_pos hge]

/-- Claim C9 (witness): the bound instantiated at the scenario shape
`len = 30`, `max_steps = 10`, `hold_periods = 12`, starting exactly at the
maximum safe offset `30 - 10 - 12 - 1 = 7`. -/
theorem claim9_no_out_of_bounds_witness :
    (10 + 12 + 1 < 30) ∧ ∀ i ∈ stepAccessedIndices 30 7 12, i < 30 :=
  ⟨by omega,
   (claim9_no_out_of_bounds 30 10 12 7 (by omega) (Or.inl rfl)).1⟩

/-- Claim C10: a `REJECT` step never changes the balance, only advances the
counters (configuration untouched, portfolio re-derived from the unchanged
balance), and therefore an all-REJECT episode keeps the balance at
`initial_balance` forever and no step of it ever sets `terminated`. -/
theorem claim10_reject_frame (e : TradeApprovalEnv)
    (hinit : 0 < e.initial_balance) :
    (e.step 0).env.balance = e.balance ∧
    (e.step 0).env.data = e.data ∧
    (e.step 0).env.max_steps = e.max_steps ∧
    (e.step 0).env.hold_periods = e.hold_periods ∧
    (e.step 0).env.initial_balance = e.initial_balance ∧
    (e.step 0).env.current_step = e.current_step + 1 ∧
    (e.step 0).env.current_idx = e.current_idx + 1 ∧
    (e.portfolio_state = balancePortfolioState e.balance e.initial_balance →
      (e.step 0).env.portfolio_state = e.portfolio_state) ∧
    (e.balance = e.initial_balance →
      ∀ n, (e.iterateSteps 0 n).balance = e.initial_balance ∧
        ((e.iterateSteps 0 n).step 0).terminated = false) := by
  refine ⟨step_balance_reject e, (step_env_config e 0).1,
    (step_env_config e 0).2.1, (step_env_config e 0).2.2.1,
    (step_env_config e 0).2.2.2.1, step_env_current_step e 0,
    step_env_current_idx e 0, ?_, ?_⟩
  · intro hcanon
    rw [step_env_portfolio_state, step_balance_reject, hcanon]
  · intro hbal
    have hiter : ∀ n, (e.iterateSteps 0 n).balance = e.initial_balance ∧
        (e.iterateSteps 0 n).initial_balance = e.initial_balance := by
      intro n
      induction n with
      | zero => exact ⟨hbal, rfl⟩
      | succ m ih =>
          constructor
          · show ((e.iterateSteps 0 m).step 0).env.balance = _
            rw [step_balance_reject]
            exact ih.1
          · show ((e.iterateSteps 0 m).step 0).env.initial_balance = _
            rw [(step_env_config (e.iterateSteps 0 m) 0).2.2.2.1]
            exact ih.2
    intro n
    refine ⟨(hiter n).1, ?_⟩
    rw [step_terminated, step_balance_reject, (hiter n).1, (hiter n).2]
    apply decide_eq_false
    intro hcon
    nlinarith

/-- Claim C10 (witness): the frame and non-termination facts instantiated
at the scenario environment (positive initial balance `10000`). -/
theorem claim10_reject_frame_witness :
    0 < scenarioEnv.initial_balance ∧
    (scenarioEnv.step 0).env.balance = scenarioEnv.balance :=
  ⟨show (0 : ℚ) < 10000 by norm_num,
   (claim10_reject_frame scenarioEnv (show (0 : ℚ) < 10000 by norm_num)).1⟩

end HyperSwarmRL
